import Mathlib

/-!
Verification of the CAN-bus intrusion-detection core of the repository
(`src/industrialNetwork/PIC32MZ/original.c`).

The shallow embedding below translates the detection engine from the C
source: the range firewall (`id_in_ranges`), the baseline store
(`learn_baseline`), the anomaly classifier (`detect_anomaly`) and the
traffic-window dispatcher (`CAN_MessageReceived`).  Machine integers that
never overflow on the inputs considered (identifiers, lengths, counters)
are modelled as `Nat`; the bitmask `& 0xFF` is modelled as `% 256`.
The global tables `idRanges` and `baselines` are passed explicitly.
-/

namespace CanBus

/-- A CAN frame (`CANMessage` in the C source): identifier, data length
code, payload bytes and reception timestamp.  The C payload is a fixed
`uint8_t[8]`; it is modelled as a list of bytes read with
`List.getD` (out-of-range reads yield 0, matching the zero-initialised
C array). -/
structure CANMessage where
  can_id : Nat
  dlc : Nat
  data : List Nat
  timestamp : Nat
deriving DecidableEq

/-- Byte `i` of a frame's payload, as read by the C code (`msg->data[i]`). -/
def dataByte (m : CANMessage) (i : Nat) : Nat := m.data.getD i 0

/-- An inclusive identifier interval of the range firewall (`IdRange` in
the source).  The C field `end` is a Lean keyword and is rendered
`end_`. -/
structure IdRange where
  start : Nat
  end_ : Nat
deriving DecidableEq

/-- `id_in_ranges` from the source: true iff the identifier falls inside
some configured interval (linear scan, first hit wins). -/
def id_in_ranges (ranges : List IdRange) (ident : Nat) : Bool :=
  ranges.any fun r => decide (r.start ≤ ident) && decide (ident ≤ r.end_)

/-- A learned per-identifier profile (`BaselinePattern` in the source):
identifier, expected data length and the 8-byte expected payload
pattern. -/
structure BaselinePattern where
  can_id : Nat
  dlc : Nat
  expected_pattern : List Nat
deriving DecidableEq

/-- The 8-byte payload snapshot taken by `learn_baseline`
(`for j in 0..8: expected_pattern[j] = msg->data[j]`). -/
def pattern_snapshot (m : CANMessage) : List Nat :=
  (List.range 8).map (dataByte m)

/-- The first baseline entry matching an identifier, as found by the
linear scans in `learn_baseline` and `detect_anomaly`. -/
def lookupBaseline (bs : List BaselinePattern) (ident : Nat) : Option BaselinePattern :=
  bs.find? fun b => b.can_id == ident

/-- The update branch of `learn_baseline`: refresh the `dlc` of the first
entry whose identifier matches (the C loop writes `baselines[i].dlc` and
returns). -/
def baseline_update_dlc : List BaselinePattern → Nat → Nat → List BaselinePattern
  | [], _, _ => []
  | b :: rest, ident, d =>
    if b.can_id == ident then { b with dlc := d } :: rest
    else b :: baseline_update_dlc rest ident d

/-- `learn_baseline` from the source: update the first matching entry's
length, otherwise append a new entry capturing length and payload
snapshot if fewer than 100 entries are stored, otherwise do nothing. -/
def learn_baseline (bs : List BaselinePattern) (msg : CANMessage) : List BaselinePattern :=
  if bs.any fun b => b.can_id == msg.can_id then
    baseline_update_dlc bs msg.can_id msg.dlc
  else if bs.length < 100 then
    bs ++ [⟨msg.can_id, msg.dlc, pattern_snapshot msg⟩]
  else bs

/-- The reasons behind the three `return true` sites of `detect_anomaly`,
named after the source comments (`Unexpected CAN ID`, `DLC changed`,
`Out of range`). -/
inductive AnomalyReason
  | UnknownIdentifier
  | LengthMismatch
  | PayloadOutOfRange
deriving DecidableEq

/-- A classification verdict: admit the frame or report an anomaly. -/
inductive Verdict
  | Admit
  | Anomaly (reason : AnomalyReason)
deriving DecidableEq

/-- Check 3 of `detect_anomaly`: for identifiers `0x300..0x399` the first
payload byte is an implausible temperature when it exceeds 120. -/
def payload_range_check (msg : CANMessage) : Verdict :=
  if 0x300 ≤ msg.can_id ∧ msg.can_id ≤ 0x399 then
    if 120 < dataByte msg 0 then .Anomaly .PayloadOutOfRange else .Admit
  else .Admit

/-- `detect_anomaly` from the source, refined with the reason named in
the source comment at each `return true` site: check 1 is the range
firewall, check 2 compares the frame length against the first matching
baseline (the loop `break`s after the first match), check 3 is the
temperature payload-range check. -/
def classify (ranges : List IdRange) (bs : List BaselinePattern) (msg : CANMessage) : Verdict :=
  if id_in_ranges ranges msg.can_id = false then .Anomaly .UnknownIdentifier
  else
    match lookupBaseline bs msg.can_id with
    | some b => if msg.dlc ≠ b.dlc then .Anomaly .LengthMismatch else payload_range_check msg
    | none => payload_range_check msg

/-- The boolean returned by the C `detect_anomaly` (true = anomaly). -/
def detect_anomaly (ranges : List IdRange) (bs : List BaselinePattern) (msg : CANMessage) : Bool :=
  decide (classify ranges bs msg ≠ Verdict.Admit)

/-- Whether check 2 of `detect_anomaly` fires: a first matching baseline
exists and its stored length differs from the frame's. -/
def length_check_fires (bs : List BaselinePattern) (msg : CANMessage) : Bool :=
  match lookupBaseline bs msg.can_id with
  | some b => decide (msg.dlc ≠ b.dlc)
  | none => false

/-- Modelled from the spec: `WINDOW_SIZE` is defined in `sensors.h`,
which is not among the sources; the spec fixes the ring capacity at 10
(end-to-end scenario 4). -/
def WINDOW_SIZE : Nat := 10

/-- The flood threshold of `CAN_MessageReceived`: the C comparison is
`id_counts[i] > (WINDOW_SIZE * 0.7)`.  With `WINDOW_SIZE = 10` the IEEE-754
double product `10 * 0.7` is exactly `7.0` (the exact product
`15762598695796735 / 2 ^ 51` rounds, ties-to-even, to `7 * 2 ^ 50 / 2 ^ 50`),
so the comparison holds exactly when the bucket count is at least 8. -/
def floodLimit : Nat := 7

/-- The recent-message ring (`MessageWindow` in the source): the message
slots, the write cursor and the monotonically increasing admitted-frame
counter. -/
structure MessageWindow where
  messages : List CANMessage
  index : Nat
  count : Nat
deriving DecidableEq

/-- The all-zero frame filling the `static MessageWindow window = {0}`
of the source before any message is admitted. -/
def zeroMessage : CANMessage := ⟨0, 0, List.replicate 8 0, 0⟩

/-- The initial (zeroed) window state. -/
def initWindow : MessageWindow := ⟨List.replicate WINDOW_SIZE zeroMessage, 0, 0⟩

/-- The histogram bucket of `CAN_MessageReceived`: how many ring slots
hold a message whose identifier hashes (`& 0xFF`) to bucket `b`. -/
def bucket_count (msgs : List CANMessage) (b : Nat) : Nat :=
  msgs.countP fun m => m.can_id % 256 == b

/-- The DoS scan of `CAN_MessageReceived`: some bucket of the 256-entry
histogram strictly exceeds the flood threshold. -/
def dos_detected (msgs : List CANMessage) : Bool :=
  (List.range 256).any fun b => decide (floodLimit < bucket_count msgs b)

/-- The mutable state read and written by the dispatcher: the baseline
store and the traffic window. -/
structure IdsState where
  baselines : List BaselinePattern
  window : MessageWindow
deriving DecidableEq

/-- The two alert kinds raised through `raise_intrusion_alert`
(`ALERT_ANOMALY_DETECTED` and `ALERT_DOS_DETECTED`). -/
inductive Alert
  | AnomalyDetected
  | DosDetected
deriving DecidableEq

/-- `CAN_MessageReceived` from the source: classify; on anomaly raise an
`AnomalyDetected` alert and stop (state untouched — the C function writes
neither `baselines` nor `window` on that path); otherwise admit the frame
into the ring, advance the cursor modulo `WINDOW_SIZE`, increment the
counter, and once the counter has reached `WINDOW_SIZE` recompute the
identifier histogram over the ring and raise `DosDetected` if some bucket
exceeds the flood threshold. -/
def CAN_MessageReceived (ranges : List IdRange) (s : IdsState) (msg : CANMessage) :
    IdsState × Option Alert :=
  if detect_anomaly ranges s.baselines msg then (s, some .AnomalyDetected)
  else
    let w' : MessageWindow :=
      ⟨s.window.messages.set s.window.index msg,
       (s.window.index + 1) % WINDOW_SIZE, s.window.count + 1⟩
    if WINDOW_SIZE ≤ w'.count then
      if dos_detected w'.messages then (⟨s.baselines, w'⟩, some .DosDetected)
      else (⟨s.baselines, w'⟩, none)
    else (⟨s.baselines, w'⟩, none)

/-- Feed a sequence of frames through the dispatcher, collecting the
alerts raised, in order. -/
def dispatch_run (ranges : List IdRange) : IdsState → List CANMessage → IdsState × List Alert
  | s, [] => (s, [])
  | s, m :: rest =>
    let step := CAN_MessageReceived ranges s m
    let next := dispatch_run ranges step.1 rest
    (next.1, step.2.toList ++ next.2)

/-- Modelled from the spec: the configured identifier-range table
`idRanges` is built from `RANGE_*` constants defined in `sensors.h`,
which is not among the sources.  The spec fixes only the temperature
interval `[0x300, 0x399]` numerically (and states that `0x050` lies
outside every range), so the table is modelled as the temperature
interval alone. -/
def idRangesSpec : List IdRange := [⟨0x300, 0x399⟩]

/-- A canonical admissible temperature frame for a given identifier:
one data byte, reading 25. -/
def tempFrame (ident : Nat) : CANMessage :=
  ⟨ident, 1, [25, 0, 0, 0, 0, 0, 0, 0], 0⟩

/-- The frames fed in spec scenario 4: seven frames of identifier
`0x321` followed by three of `0x322`. -/
def scenario73 : List CANMessage :=
  List.replicate 7 (tempFrame 0x321) ++ List.replicate 3 (tempFrame 0x322)

/-- The variant of scenario 4 that does strictly exceed the threshold:
eight frames of `0x321` followed by two of `0x322`. -/
def scenario82 : List CANMessage :=
  List.replicate 8 (tempFrame 0x321) ++ List.replicate 2 (tempFrame 0x322)

/-- The full global state touched by the detection path, for the
state-passing translation of `detect_anomaly`: the (const) range table,
the baseline store and the traffic window. -/
structure GlobalState where
  idRanges : List IdRange
  baselines : List BaselinePattern
  window : MessageWindow
deriving DecidableEq

/-- The loop of `id_in_ranges`, with the global state threaded through
every iteration (the loop only reads the table). -/
def id_in_rangesGo : List IdRange → Nat → GlobalState → Bool × GlobalState
  | [], _, s => (false, s)
  | r :: rest, ident, s =>
    if decide (r.start ≤ ident) && decide (ident ≤ r.end_) then (true, s)
    else id_in_rangesGo rest ident s

/-- The check-2 loop of `detect_anomaly`, with the global state threaded
through: `some true` models `return true` (length mismatch), `some false`
models the `break` after a matching entry with equal length, `none`
models loop exhaustion. -/
def dlc_checkGo : List BaselinePattern → CANMessage → GlobalState → Option Bool × GlobalState
  | [], _, s => (none, s)
  | b :: rest, msg, s =>
    if b.can_id == msg.can_id then
      if msg.dlc ≠ b.dlc then (some true, s) else (some false, s)
    else dlc_checkGo rest msg s

/-- The state-passing translation of `detect_anomaly`: every read of the
global tables goes through the threaded state, so that preservation of
the state is a theorem rather than a typing convention. -/
def detect_anomalyS (s : GlobalState) (msg : CANMessage) : Bool × GlobalState :=
  let r1 := id_in_rangesGo s.idRanges msg.can_id s
  if r1.1 = false then (true, r1.2)
  else
    let r2 := dlc_checkGo r1.2.baselines msg r1.2
    match r2.1 with
    | some true => (true, r2.2)
    | _ =>
      if 0x300 ≤ msg.can_id ∧ msg.can_id ≤ 0x399 then
        if 120 < dataByte msg 0 then (true, r2.2) else (false, r2.2)
      else (false, r2.2)

/-! ### Basic facts about the classifier -/

/-- The C boolean verdict is false exactly when the refined verdict is
`Admit`. -/
theorem detect_anomaly_eq_false_iff (ranges : List IdRange) (bs : List BaselinePattern)
    (msg : CANMessage) :
    detect_anomaly ranges bs msg = false ↔ classify ranges bs msg = Verdict.Admit := by
  simp [detect_anomaly]

/-- The payload-range check never reports a length mismatch. -/
theorem payload_range_check_ne_length (msg : CANMessage) :
    payload_range_check msg ≠ Verdict.Anomaly AnomalyReason.LengthMismatch := by
  unfold payload_range_check
  split
  · split <;> simp
  · simp

/-- C1: a frame whose identifier lies outside every configured range is
classified `UnknownIdentifier` before any other check, whatever its
payload bytes and whatever the baseline store holds. -/
theorem classify_unknown_of_out_of_ranges (ranges : List IdRange) (bs : List BaselinePattern)
    (msg : CANMessage) (h : id_in_ranges ranges msg.can_id = false) :
    classify ranges bs msg = Verdict.Anomaly AnomalyReason.UnknownIdentifier := by
  simp [classify, h]

/-- C1 witness: identifier `0x050` is outside the configured ranges and is
classified `UnknownIdentifier` even with a baseline entry for it present
and an arbitrary payload. -/
theorem classify_unknown_witness :
    classify idRangesSpec [⟨0x050, 1, [25, 0, 0, 0, 0, 0, 0, 0]⟩]
        ⟨0x050, 1, [200, 7, 0, 0, 0, 0, 0, 0], 5⟩
      = Verdict.Anomaly AnomalyReason.UnknownIdentifier :=
  classify_unknown_of_out_of_ranges idRangesSpec
    [⟨0x050, 1, [25, 0, 0, 0, 0, 0, 0, 0]⟩]
    ⟨0x050, 1, [200, 7, 0, 0, 0, 0, 0, 0], 5⟩ (by decide)

/-- C2: for a frame passing the firewall, if a baseline entry for its
identifier exists (the first matching one, as consulted by the source)
then a differing `dlc` yields `LengthMismatch` and an equal `dlc` never
does; if no entry exists, the length check never fires at all. -/
theorem classify_length_check (ranges : List IdRange) (bs : List BaselinePattern)
    (msg : CANMessage) (h : id_in_ranges ranges msg.can_id = true) :
    (∀ b, lookupBaseline bs msg.can_id = some b →
      (msg.dlc ≠ b.dlc → classify ranges bs msg = Verdict.Anomaly AnomalyReason.LengthMismatch) ∧
      (msg.dlc = b.dlc → classify ranges bs msg ≠ Verdict.Anomaly AnomalyReason.LengthMismatch)) ∧
    (lookupBaseline bs msg.can_id = none →
      classify ranges bs msg ≠ Verdict.Anomaly AnomalyReason.LengthMismatch) := by
  constructor
  · intro b hb
    constructor
    · intro hne
      simp [classify, h, hb, hne]
    · intro heq
      simp [classify, h, hb, heq]
      exact payload_range_check_ne_length msg
  · intro hnone
    simp [classify, h, hnone]
    exact payload_range_check_ne_length msg

/-- C2 witness: spec scenario 2 — with a baseline `dlc = 1` learned for
identifier `0x300`, a frame of `dlc = 2` is classified `LengthMismatch`. -/
theorem classify_length_check_witness :
    classify idRangesSpec [⟨0x300, 1, [25, 0, 0, 0, 0, 0, 0, 0]⟩]
        ⟨0x300, 2, [25, 0, 0, 0, 0, 0, 0, 0], 0⟩
      = Verdict.Anomaly AnomalyReason.LengthMismatch :=
  ((classify_length_check idRangesSpec [⟨0x300, 1, [25, 0, 0, 0, 0, 0, 0, 0]⟩]
      ⟨0x300, 2, [25, 0, 0, 0, 0, 0, 0, 0], 0⟩ (by decide)).1
    ⟨0x300, 1, [25, 0, 0, 0, 0, 0, 0, 0]⟩ (by decide)).1 (by decide)

/-- C3: a temperature-domain frame (identifier `0x300..0x399`) that
reaches the payload-range check (firewall passed, length check silent) is
admitted when `payload[0] ≤ 120` and classified `PayloadOutOfRange` when
`payload[0] > 120` — in particular with no baseline entry present. -/
theorem classify_payload_range (ranges : List IdRange) (bs : List BaselinePattern)
    (msg : CANMessage) (h1 : id_in_ranges ranges msg.can_id = true)
    (h2 : 0x300 ≤ msg.can_id) (h3 : msg.can_id ≤ 0x399)
    (h4 : length_check_fires bs msg = false) :
    (dataByte msg 0 ≤ 120 → classify ranges bs msg = Verdict.Admit) ∧
    (120 < dataByte msg 0 →
      classify ranges bs msg = Verdict.Anomaly AnomalyReason.PayloadOutOfRange) := by
  constructor
  · intro hle
    have hnot : ¬ 120 < dataByte msg 0 := by omega
    unfold classify
    rw [h1]
    cases hfind : lookupBaseline bs msg.can_id with
    | some b =>
      have : msg.dlc = b.dlc := by
        unfold length_check_fires at h4
        rw [hfind] at h4
        simpa using h4
      simp [this, payload_range_check, h2, h3, hnot]
    | none =>
      simp [payload_range_check, h2, h3, hnot]
  · intro hgt
    unfold classify
    rw [h1]
    cases hfind : lookupBaseline bs msg.can_id with
    | some b =>
      have : msg.dlc = b.dlc := by
        unfold length_check_fires at h4
        rw [hfind] at h4
        simpa using h4
      simp [this, payload_range_check, h2, h3, hgt]
    | none =>
      simp [payload_range_check, h2, h3, hgt]

/-- C3 witness: spec scenario 3 — identifier `0x300`, `payload[0] = 130`,
no baseline entry at all: classified `PayloadOutOfRange`. -/
theorem classify_payload_range_witness :
    classify idRangesSpec [] ⟨0x300, 1, [130, 0, 0, 0, 0, 0, 0, 0], 0⟩
      = Verdict.Anomaly AnomalyReason.PayloadOutOfRange :=
  (classify_payload_range idRangesSpec [] ⟨0x300, 1, [130, 0, 0, 0, 0, 0, 0, 0], 0⟩
    (by decide) (by decide) (by decide) (by decide)).2 (by decide)

/-! ### Baseline store: capacity and idempotence -/

/-- C6: with the store holding exactly 100 entries and a frame whose
identifier matches none of them, `learn_baseline` is a no-op — every
entry and the occupancy count are unchanged and a lookup of the new
identifier still finds nothing.  (The model, like the C function, has no
error path at all: the call simply returns.) -/
theorem learn_baseline_capacity (bs : List BaselinePattern) (msg : CANMessage)
    (hlen : bs.length = 100) (hfresh : ∀ b ∈ bs, b.can_id ≠ msg.can_id) :
    learn_baseline bs msg = bs ∧
    lookupBaseline (learn_baseline bs msg) msg.can_id = none := by
  have hany : (bs.any fun b => b.can_id == msg.can_id) = false := by
    rw [List.any_eq_false]
    intro b hb
    simpa using hfresh b hb
  have hnoop : learn_baseline bs msg = bs := by
    unfold learn_baseline
    rw [hany]
    simp [hlen]
  refine ⟨hnoop, ?_⟩
  rw [hnoop]
  unfold lookupBaseline
  rw [List.find?_eq_none]
  intro b hb
  simpa using hfresh b hb

/-- A frame with identifier `i`, used to populate the store in the C6
witness. -/
def witFrame (i : Nat) : CANMessage := ⟨i, 1, [i, 0, 0, 0, 0, 0, 0, 0], 0⟩

/-- The store obtained by learning 100 frames with the distinct
identifiers `0..99`. -/
def fullStore : List BaselinePattern :=
  (List.range 100).foldl (fun s i => learn_baseline s (witFrame i)) []

set_option maxRecDepth 20000 in
/-- C6 witness: after learning 100 distinct identifiers, learning the
fresh identifier `200` leaves the store untouched and unlocatable. -/
theorem learn_baseline_capacity_witness :
    learn_baseline fullStore (witFrame 200) = fullStore ∧
    lookupBaseline (learn_baseline fullStore (witFrame 200)) (witFrame 200).can_id = none :=
  learn_baseline_capacity fullStore (witFrame 200) (by decide) (by decide)

/-- The branch of `learn_baseline` taken when the identifier is already
stored. -/
theorem learn_baseline_of_any (bs : List BaselinePattern) (msg : CANMessage)
    (hany : (bs.any fun b => b.can_id == msg.can_id) = true) :
    learn_baseline bs msg = baseline_update_dlc bs msg.can_id msg.dlc := by
  simp [learn_baseline, hany]

/-- Unfolding the update loop at a non-matching head entry. -/
theorem baseline_update_dlc_cons_neg (b : BaselinePattern) (rest : List BaselinePattern)
    (ident d : Nat) (h : (b.can_id == ident) = false) :
    baseline_update_dlc (b :: rest) ident d = b :: baseline_update_dlc rest ident d := by
  simp [baseline_update_dlc, h]

/-- Unfolding the update loop at a matching head entry. -/
theorem baseline_update_dlc_cons_pos (b : BaselinePattern) (rest : List BaselinePattern)
    (ident d : Nat) (h : (b.can_id == ident) = true) :
    baseline_update_dlc (b :: rest) ident d = { b with dlc := d } :: rest := by
  simp [baseline_update_dlc, h]

/-- Updating the first matching entry's length keeps the identifiers,
hence the result of the membership scan. -/
theorem baseline_update_dlc_any (bs : List BaselinePattern) (ident d : Nat) (q : Nat) :
    ((baseline_update_dlc bs ident d).any fun b => b.can_id == q) =
      (bs.any fun b => b.can_id == q) := by
  induction bs with
  | nil => rfl
  | cons b rest ih =>
    by_cases h : (b.can_id == ident) = true
    · rw [baseline_update_dlc_cons_pos b rest ident d h]
      simp [List.any_cons]
    · rw [baseline_update_dlc_cons_neg b rest ident d (by simpa using h)]
      simp only [List.any_cons, ih]

/-- Updating the same entry's length twice is the same as once. -/
theorem baseline_update_dlc_idem (bs : List BaselinePattern) (ident d : Nat) :
    baseline_update_dlc (baseline_update_dlc bs ident d) ident d =
      baseline_update_dlc bs ident d := by
  induction bs with
  | nil => rfl
  | cons b rest ih =>
    by_cases h : (b.can_id == ident) = true
    · rw [baseline_update_dlc_cons_pos b rest ident d h,
        baseline_update_dlc_cons_pos _ rest ident d (by simpa using h)]
    · have h' : (b.can_id == ident) = false := by simpa using h
      rw [baseline_update_dlc_cons_neg b rest ident d h',
        baseline_update_dlc_cons_neg b _ ident d h', ih]

/-- When no entry of `bs` matches, updating `bs ++ [e]` only touches `e`. -/
theorem baseline_update_dlc_append (bs : List BaselinePattern) (e : BaselinePattern)
    (ident d : Nat) (hany : (bs.any fun b => b.can_id == ident) = false)
    (he : (e.can_id == ident) = true) :
    baseline_update_dlc (bs ++ [e]) ident d = bs ++ [{ e with dlc := d }] := by
  induction bs with
  | nil =>
    simpa using baseline_update_dlc_cons_pos e [] ident d he
  | cons b rest ih =>
    simp only [List.any_cons, Bool.or_eq_false_iff] at hany
    rw [List.cons_append, baseline_update_dlc_cons_neg b _ ident d hany.1,
      ih hany.2, List.cons_append]

/-- The update loop rewrites the first matching entry to the new length
and leaves every other entry untouched. -/
theorem baseline_update_dlc_set (bs : List BaselinePattern) (ident d : Nat)
    (hany : (bs.any fun b => b.can_id == ident) = true) :
    ∃ i b, bs.get? i = some b ∧ b.can_id = ident ∧
      baseline_update_dlc bs ident d = bs.set i ⟨b.can_id, d, b.expected_pattern⟩ := by
  induction bs with
  | nil => simp at hany
  | cons b rest ih =>
    by_cases h : (b.can_id == ident) = true
    · exact ⟨0, b, rfl, by simpa using h,
        by rw [baseline_update_dlc_cons_pos b rest ident d h]; rfl⟩
    · simp only [List.any_cons, h, Bool.false_or] at hany
      obtain ⟨i, b', hget, hid, heq⟩ := ih hany
      refine ⟨i + 1, b', by simpa using hget, hid, ?_⟩
      rw [baseline_update_dlc_cons_neg b rest ident d (by simpa using h), heq]
      rfl

/-- C7: learning the same frame twice leaves the store as after one call;
and when the frame's identifier is already present, learning rewrites
only the stored expected length of the first matching entry — its
identifier, its expected payload pattern and every other entry are
unchanged (the result is a one-slot `List.set`). -/
theorem learn_baseline_idem_update (bs : List BaselinePattern) (msg : CANMessage) :
    learn_baseline (learn_baseline bs msg) msg = learn_baseline bs msg ∧
    ((bs.any fun b => b.can_id == msg.can_id) = true →
      ∃ i b, bs.get? i = some b ∧ b.can_id = msg.can_id ∧
        learn_baseline bs msg = bs.set i ⟨b.can_id, msg.dlc, b.expected_pattern⟩) := by
  constructor
  · by_cases hany : (bs.any fun b => b.can_id == msg.can_id) = true
    · rw [learn_baseline_of_any bs msg hany,
        learn_baseline_of_any _ msg (by rw [baseline_update_dlc_any]; exact hany)]
      exact baseline_update_dlc_idem bs msg.can_id msg.dlc
    · rw [Bool.not_eq_true] at hany
      by_cases hlen : bs.length < 100
      · have h1 : learn_baseline bs msg =
            bs ++ [⟨msg.can_id, msg.dlc, pattern_snapshot msg⟩] := by
          simp [learn_baseline, hany, hlen]
        rw [h1]
        have hany2 : ((bs ++ [(⟨msg.can_id, msg.dlc, pattern_snapshot msg⟩ : BaselinePattern)]).any
            fun b => b.can_id == msg.can_id) = true := by
          simp [List.any_append]
        rw [learn_baseline_of_any _ msg hany2,
          baseline_update_dlc_append bs _ msg.can_id msg.dlc hany (by simp)]
      · have h1 : learn_baseline bs msg = bs := by
          simp [learn_baseline, hany, hlen]
        rw [h1, h1]
  · intro hany
    rw [learn_baseline_of_any bs msg hany]
    exact baseline_update_dlc_set bs msg.can_id msg.dlc hany

/-- C7 witness: with identifier `0x300` stored (length 1, pattern
`[25,…]`), learning a frame of length 2 rewrites exactly the first slot,
keeping the pattern. -/
theorem learn_baseline_idem_update_witness :
    ∃ i b, [(⟨0x300, 1, [25, 0, 0, 0, 0, 0, 0, 0]⟩ : BaselinePattern)].get? i = some b ∧
      b.can_id = (0x300 : Nat) ∧
      learn_baseline [⟨0x300, 1, [25, 0, 0, 0, 0, 0, 0, 0]⟩]
          ⟨0x300, 2, [30, 0, 0, 0, 0, 0, 0, 0], 9⟩ =
        [(⟨0x300, 1, [25, 0, 0, 0, 0, 0, 0, 0]⟩ : BaselinePattern)].set i
          ⟨b.can_id, 2, b.expected_pattern⟩ :=
  (learn_baseline_idem_update [⟨0x300, 1, [25, 0, 0, 0, 0, 0, 0, 0]⟩]
    ⟨0x300, 2, [30, 0, 0, 0, 0, 0, 0, 0], 9⟩).2 (by decide)

/-! ### Dispatcher frame effects -/

/-- C8: on a frame the classifier rejects, the dispatcher raises
`AnomalyDetected` and stops: the returned state — ring contents, cursor,
admitted-frame counter and baseline store — is exactly the input state. -/
theorem CAN_MessageReceived_anomalous (ranges : List IdRange) (s : IdsState)
    (msg : CANMessage) (h : detect_anomaly ranges s.baselines msg = true) :
    CAN_MessageReceived ranges s msg = (s, some Alert.AnomalyDetected) := by
  simp [CAN_MessageReceived, h]

/-- C8 witness: an out-of-range frame (`0x050`) leaves a mid-fill state
(two admitted frames, cursor 2) completely unchanged and raises
`AnomalyDetected`. -/
theorem CAN_MessageReceived_anomalous_witness :
    CAN_MessageReceived idRangesSpec
        ⟨[⟨0x300, 1, [25, 0, 0, 0, 0, 0, 0, 0]⟩],
         ⟨[tempFrame 0x300, tempFrame 0x301, zeroMessage, zeroMessage, zeroMessage,
           zeroMessage, zeroMessage, zeroMessage, zeroMessage, zeroMessage], 2, 2⟩⟩
        ⟨0x050, 1, [25, 0, 0, 0, 0, 0, 0, 0], 0⟩
      = (⟨[⟨0x300, 1, [25, 0, 0, 0, 0, 0, 0, 0]⟩],
          ⟨[tempFrame 0x300, tempFrame 0x301, zeroMessage, zeroMessage, zeroMessage,
            zeroMessage, zeroMessage, zeroMessage, zeroMessage, zeroMessage], 2, 2⟩⟩,
         some Alert.AnomalyDetected) :=
  CAN_MessageReceived_anomalous idRangesSpec
    ⟨[⟨0x300, 1, [25, 0, 0, 0, 0, 0, 0, 0]⟩],
     ⟨[tempFrame 0x300, tempFrame 0x301, zeroMessage, zeroMessage, zeroMessage,
       zeroMessage, zeroMessage, zeroMessage, zeroMessage, zeroMessage], 2, 2⟩⟩
    ⟨0x050, 1, [25, 0, 0, 0, 0, 0, 0, 0], 0⟩ (by decide)

/-! ### The classifier is read-only (state-passing translation) -/

/-- The threaded firewall loop returns the pure verdict and the state it
was given. -/
theorem id_in_rangesGo_eq (rs : List IdRange) (ident : Nat) (s : GlobalState) :
    id_in_rangesGo rs ident s = (id_in_ranges rs ident, s) := by
  induction rs with
  | nil => simp [id_in_rangesGo, id_in_ranges]
  | cons r rest ih =>
    by_cases h : (decide (r.start ≤ ident) && decide (ident ≤ r.end_)) = true
    · simp [id_in_rangesGo, id_in_ranges, List.any_cons, h]
    · simp only [id_in_rangesGo, h, Bool.false_eq_true, if_false, ih]
      simp only [Bool.not_eq_true] at h
      simp [id_in_ranges, List.any_cons, h]

/-- The threaded check-2 loop returns the pure first-match length verdict
and the state it was given. -/
theorem dlc_checkGo_eq (bs : List BaselinePattern) (msg : CANMessage) (s : GlobalState) :
    dlc_checkGo bs msg s =
      ((lookupBaseline bs msg.can_id).map fun b => decide (msg.dlc ≠ b.dlc), s) := by
  induction bs with
  | nil => simp [dlc_checkGo, lookupBaseline]
  | cons b rest ih =>
    by_cases h : (b.can_id == msg.can_id) = true
    · by_cases hd : msg.dlc ≠ b.dlc
      · simp [dlc_checkGo, lookupBaseline, h, hd]
      · simp only [dlc_checkGo, h, if_true, if_neg hd]
        simp [lookupBaseline, h, not_not.mp hd]
    · simp only [dlc_checkGo, h, Bool.false_eq_true, if_false, ih]
      simp only [Bool.not_eq_true] at h
      simp [lookupBaseline, List.find?_cons, h]

/-- C10: the state-passing translation of `detect_anomaly` returns the
global state (range table, baseline store and its occupancy, window)
unchanged, and its verdict is the pure function of the frame and state —
so two calls on the same frame and state return the same verdict. -/
theorem detect_anomalyS_pure (s : GlobalState) (msg : CANMessage) :
    detect_anomalyS s msg = (detect_anomaly s.idRanges s.baselines msg, s) := by
  by_cases hr : id_in_ranges s.idRanges msg.can_id = false
  · simp [detect_anomalyS, id_in_rangesGo_eq, hr, detect_anomaly, classify]
  · rw [Bool.not_eq_false] at hr
    cases hfind : lookupBaseline s.baselines msg.can_id with
    | none =>
      by_cases h2 : 0x300 ≤ msg.can_id ∧ msg.can_id ≤ 0x399
      · by_cases h3 : 120 < dataByte msg 0
        · simp [detect_anomalyS, id_in_rangesGo_eq, dlc_checkGo_eq, hfind, h2, h3,
            detect_anomaly, classify, hr, payload_range_check]
        · simp [detect_anomalyS, id_in_rangesGo_eq, dlc_checkGo_eq, hfind, h2, h3,
            detect_anomaly, classify, hr, payload_range_check]
      · simp [detect_anomalyS, id_in_rangesGo_eq, dlc_checkGo_eq, hfind, h2,
          detect_anomaly, classify, hr, payload_range_check]
    | some b =>
      by_cases hd : msg.dlc ≠ b.dlc
      · simp [detect_anomalyS, id_in_rangesGo_eq, dlc_checkGo_eq, hfind, hd,
          detect_anomaly, classify, hr]
      · by_cases h2 : 0x300 ≤ msg.can_id ∧ msg.can_id ≤ 0x399
        · by_cases h3 : 120 < dataByte msg 0
          · simp [detect_anomalyS, id_in_rangesGo_eq, dlc_checkGo_eq, hfind, hd, h2, h3,
              detect_anomaly, classify, hr, payload_range_check]
          · simp [detect_anomalyS, id_in_rangesGo_eq, dlc_checkGo_eq, hfind, hd, h2, h3,
              detect_anomaly, classify, hr, payload_range_check]
        · simp [detect_anomalyS, id_in_rangesGo_eq, dlc_checkGo_eq, hfind, hd, h2,
            detect_anomaly, classify, hr, payload_range_check]

/-! ### Defensive payload reads (C9) -/

/-- C9 counterexample: the code does read payload bytes at and beyond the
declared length.  The two learning frames agree on identifier, `dlc = 1`
and the single declared payload byte, yet produce different stores
(`learn_baseline` snapshots all 8 bytes); the two classification frames
agree on identifier, `dlc = 0` and the (empty) declared payload, yet get
different verdicts (`detect_anomaly` reads `payload[0]` regardless). -/
theorem defensive_read_counterexample :
    ((⟨0x300, 1, [25, 0, 0, 0, 0, 0, 0, 1], 0⟩ : CANMessage).can_id =
        (⟨0x300, 1, [25, 0, 0, 0, 0, 0, 0, 2], 0⟩ : CANMessage).can_id ∧
      (⟨0x300, 1, [25, 0, 0, 0, 0, 0, 0, 1], 0⟩ : CANMessage).dlc =
        (⟨0x300, 1, [25, 0, 0, 0, 0, 0, 0, 2], 0⟩ : CANMessage).dlc ∧
      [25, 0, 0, 0, 0, 0, 0, 1].take 1 = [25, 0, 0, 0, 0, 0, 0, 2].take 1 ∧
      learn_baseline [] ⟨0x300, 1, [25, 0, 0, 0, 0, 0, 0, 1], 0⟩ ≠
        learn_baseline [] ⟨0x300, 1, [25, 0, 0, 0, 0, 0, 0, 2], 0⟩) ∧
    ((⟨0x300, 0, [130, 0, 0, 0, 0, 0, 0, 0], 0⟩ : CANMessage).can_id =
        (⟨0x300, 0, [25, 0, 0, 0, 0, 0, 0, 0], 0⟩ : CANMessage).can_id ∧
      (⟨0x300, 0, [130, 0, 0, 0, 0, 0, 0, 0], 0⟩ : CANMessage).dlc =
        (⟨0x300, 0, [25, 0, 0, 0, 0, 0, 0, 0], 0⟩ : CANMessage).dlc ∧
      [130, 0, 0, 0, 0, 0, 0, 0].take 0 = [25, 0, 0, 0, 0, 0, 0, 0].take 0 ∧
      detect_anomaly idRangesSpec [] ⟨0x300, 0, [130, 0, 0, 0, 0, 0, 0, 0], 0⟩ ≠
        detect_anomaly idRangesSpec [] ⟨0x300, 0, [25, 0, 0, 0, 0, 0, 0, 0], 0⟩) := by
  decide

/-- C9 amended: classification and learning read at most the identifier,
the declared length and the full 8-byte payload buffer (never the
timestamp): two frames agreeing on those three fields get the same
verdict and produce the same store — but agreement on only the first
`dlc` bytes is not enough, because `learn_baseline` snapshots all 8
payload bytes and the temperature check reads `payload[0]` regardless of
`dlc`. -/
theorem classify_learn_field_congruence (ranges : List IdRange) (bs : List BaselinePattern)
    (f1 f2 : CANMessage) (h1 : f1.can_id = f2.can_id) (h2 : f1.dlc = f2.dlc)
    (h3 : f1.data = f2.data) :
    classify ranges bs f1 = classify ranges bs f2 ∧
    detect_anomaly ranges bs f1 = detect_anomaly ranges bs f2 ∧
    learn_baseline bs f1 = learn_baseline bs f2 := by
  obtain ⟨i1, d1, da1, t1⟩ := f1
  obtain ⟨i2, d2, da2, t2⟩ := f2
  simp only [CANMessage.mk.injEq] at *
  subst h1; subst h2; subst h3
  exact ⟨rfl, rfl, rfl⟩

/-- C9 amended witness: two frames differing only in their timestamps are
classified identically and learned identically. -/
theorem classify_learn_field_congruence_witness :
    classify idRangesSpec [] ⟨0x300, 1, [25, 0, 0, 0, 0, 0, 0, 0], 0⟩ =
        classify idRangesSpec [] ⟨0x300, 1, [25, 0, 0, 0, 0, 0, 0, 0], 99⟩ ∧
    detect_anomaly idRangesSpec [] ⟨0x300, 1, [25, 0, 0, 0, 0, 0, 0, 0], 0⟩ =
        detect_anomaly idRangesSpec [] ⟨0x300, 1, [25, 0, 0, 0, 0, 0, 0, 0], 99⟩ ∧
    learn_baseline [] ⟨0x300, 1, [25, 0, 0, 0, 0, 0, 0, 0], 0⟩ =
        learn_baseline [] ⟨0x300, 1, [25, 0, 0, 0, 0, 0, 0, 0], 99⟩ :=
  classify_learn_field_congruence idRangesSpec []
    ⟨0x300, 1, [25, 0, 0, 0, 0, 0, 0, 0], 0⟩
    ⟨0x300, 1, [25, 0, 0, 0, 0, 0, 0, 0], 99⟩ rfl rfl rfl

/-! ### Window machinery for the flood claims -/

/-- The window after admitting a sequence of frames (ring write, cursor
advance, counter increment — the admission part of
`CAN_MessageReceived`). -/
def fillWindow : MessageWindow → List CANMessage → MessageWindow
  | w, [] => w
  | w, m :: rest =>
    fillWindow ⟨w.messages.set w.index m, (w.index + 1) % WINDOW_SIZE, w.count + 1⟩ rest

/-- An admitted frame that does not yet fill the ring produces no alert
and just advances the window. -/
theorem CAN_MessageReceived_admit_nofull (ranges : List IdRange) (s : IdsState)
    (msg : CANMessage) (h : detect_anomaly ranges s.baselines msg = false)
    (hc : s.window.count + 1 < WINDOW_SIZE) :
    CAN_MessageReceived ranges s msg =
      (⟨s.baselines, ⟨s.window.messages.set s.window.index msg,
        (s.window.index + 1) % WINDOW_SIZE, s.window.count + 1⟩⟩, none) := by
  simp [CAN_MessageReceived, h, Nat.not_le.mpr hc]

/-- An admitted frame that fills (or keeps full) the ring triggers the
histogram scan on the updated ring. -/
theorem CAN_MessageReceived_admit_full (ranges : List IdRange) (s : IdsState)
    (msg : CANMessage) (h : detect_anomaly ranges s.baselines msg = false)
    (hc : WINDOW_SIZE ≤ s.window.count + 1) :
    CAN_MessageReceived ranges s msg =
      (⟨s.baselines, ⟨s.window.messages.set s.window.index msg,
        (s.window.index + 1) % WINDOW_SIZE, s.window.count + 1⟩⟩,
       if dos_detected (s.window.messages.set s.window.index msg) then some Alert.DosDetected
       else none) := by
  by_cases hd : dos_detected (s.window.messages.set s.window.index msg) = true
  · simp [CAN_MessageReceived, h, hc, hd]
  · rw [Bool.not_eq_true] at hd
    simp [CAN_MessageReceived, h, hc, hd]

/-- Running the dispatcher over a concatenation: states thread through,
alert lists concatenate. -/
theorem dispatch_run_append (ranges : List IdRange) (s : IdsState) (xs ys : List CANMessage) :
    dispatch_run ranges s (xs ++ ys) =
      ((dispatch_run ranges (dispatch_run ranges s xs).1 ys).1,
       (dispatch_run ranges s xs).2 ++ (dispatch_run ranges (dispatch_run ranges s xs).1 ys).2) := by
  induction xs generalizing s with
  | nil => simp [dispatch_run]
  | cons m rest ih => simp [dispatch_run, ih, List.append_assoc]

/-- While the admitted-frame counter stays below the ring capacity, a run
of admissible frames raises no alert and just fills the window. -/
theorem dispatch_run_fill (ranges : List IdRange) (bs : List BaselinePattern) :
    ∀ (ms : List CANMessage) (w : MessageWindow),
      (∀ m ∈ ms, detect_anomaly ranges bs m = false) →
      w.count + ms.length < WINDOW_SIZE →
      dispatch_run ranges ⟨bs, w⟩ ms = (⟨bs, fillWindow w ms⟩, [])
  | [], w, _, _ => by simp [dispatch_run, fillWindow]
  | m :: rest, w, hadm, hc => by
    have hlen : w.count + (m :: rest).length = w.count + rest.length + 1 := by
      simp [List.length_cons]; omega
    have hstep := CAN_MessageReceived_admit_nofull ranges ⟨bs, w⟩ m
      (hadm m (List.mem_cons_self m rest)) (by simp only [hlen] at hc; simp; omega)
    have hrec := dispatch_run_fill ranges bs rest
      ⟨w.messages.set w.index m, (w.index + 1) % WINDOW_SIZE, w.count + 1⟩
      (fun x hx => hadm x (List.mem_cons_of_mem m hx))
      (by simp only [hlen] at hc; simp; omega)
    simp only [dispatch_run, hstep, Option.toList_none, List.nil_append]
    rw [hrec]
    rfl

/-! ### The flood threshold is strict (C4) -/

set_option maxRecDepth 100000 in
/-- C4 counterexample: spec scenario 4 does not raise an alert.  All ten
frames (seven of identifier `0x321`, then three of `0x322`) are
individually admissible, yet the run raises nothing: when the ring
fills, the dominant bucket holds exactly 7 entries and the C comparison
`id_counts[i] > WINDOW_SIZE * 0.7` (exactly `7 > 7.0`) is false — the
70% threshold being met is not enough, it must be strictly exceeded. -/
theorem scenario73_no_alert :
    (scenario73.all fun m => !detect_anomaly idRangesSpec [] m) = true ∧
    (dispatch_run idRangesSpec ⟨[], initWindow⟩ scenario73).2 = [] := by
  decide

set_option maxRecDepth 100000 in
/-- C4 amended: the flood scan flags exactly the rings in which some
histogram bucket strictly exceeds 70% of the capacity (more than 7 of
10); the 7-of-10 scenario therefore raises nothing (see the
counterexample), while its 8-of-10 variant — eight admissible frames of
`0x321` followed by two of `0x322` — raises `DosDetected` when the ring
fills. -/
theorem dos_detected_strict_threshold :
    (∀ msgs : List CANMessage,
      dos_detected msgs = true ↔ ∃ b, b < 256 ∧ floodLimit < bucket_count msgs b) ∧
    (scenario82.all fun m => !detect_anomaly idRangesSpec [] m) = true ∧
    (dispatch_run idRangesSpec ⟨[], initWindow⟩ scenario82).2 = [Alert.DosDetected] := by
  refine ⟨?_, by decide, by decide⟩
  intro msgs
  rw [dos_detected, List.any_eq_true]
  constructor
  · rintro ⟨b, hb, hp⟩
    exact ⟨b, List.mem_range.mp hb, of_decide_eq_true hp⟩
  · rintro ⟨b, hb, hp⟩
    exact ⟨b, List.mem_range.mpr hb, decide_eq_true hp⟩

/-! ### The window flood law (C5) -/

/-- Under the modelled range table, an admissible frame's identifier lies
in the temperature interval. -/
theorem admissible_bounds (bs : List BaselinePattern) (m : CANMessage)
    (h : detect_anomaly idRangesSpec bs m = false) :
    0x300 ≤ m.can_id ∧ m.can_id ≤ 0x399 := by
  rw [detect_anomaly_eq_false_iff] at h
  by_cases hin : id_in_ranges idRangesSpec m.can_id = true
  · unfold id_in_ranges idRangesSpec at hin
    simpa using hin
  · rw [Bool.not_eq_true] at hin
    simp [classify, hin] at h

/-- Two indices at distance 1 or 2 have different residues modulo any
modulus at least 3. -/
theorem mod_close_ne (k i d : Nat) (hk : 3 ≤ k) (hd1 : 1 ≤ d) (hd2 : d ≤ 2) :
    (i + d) % k ≠ i % k := by
  intro h
  have hdvd : k ∣ (i + d - i) := (Nat.modEq_iff_dvd' (Nat.le_add_right i d)).mp h.symm
  rw [Nat.add_sub_cancel_left] at hdvd
  have := Nat.le_of_dvd (by omega) hdvd
  omega

/-- Distinct positions of a duplicate-free identifier list with
temperature-interval entries map to distinct low-byte buckets. -/
theorem getD_bucket_inj (l : List Nat) (hnd : l.Nodup) (p1 p2 : Nat)
    (h1 : p1 < l.length) (h2 : p2 < l.length)
    (hb1 : 0x300 ≤ l.getD p1 0 ∧ l.getD p1 0 ≤ 0x399)
    (hb2 : 0x300 ≤ l.getD p2 0 ∧ l.getD p2 0 ≤ 0x399)
    (heq : l.getD p1 0 % 256 = l.getD p2 0 % 256) : p1 = p2 := by
  have e1 : l.getD p1 0 = l.get ⟨p1, h1⟩ := by
    simp [List.getD_eq_getElem?_getD, List.getElem?_eq_getElem h1]
  have e2 : l.getD p2 0 = l.get ⟨p2, h2⟩ := by
    simp [List.getD_eq_getElem?_getD, List.getElem?_eq_getElem h2]
  have hval : l.getD p1 0 = l.getD p2 0 := by omega
  rw [e1, e2] at hval
  have := (List.Nodup.get_inj_iff hnd).mp hval
  simpa using this

/-- Frames of a round-robin at index distance 1 or 2 land in different
buckets. -/
theorem bucket_pair_exclusion (l : List Nat) (hk : 3 ≤ l.length) (hnd : l.Nodup)
    (b i j : Nat) (hlt : i < j) (hclose : j ≤ i + 2)
    (mi mj : CANMessage)
    (hidi : mi.can_id = l.getD (i % l.length) 0)
    (hidj : mj.can_id = l.getD (j % l.length) 0)
    (hbi : 0x300 ≤ mi.can_id ∧ mi.can_id ≤ 0x399)
    (hbj : 0x300 ≤ mj.can_id ∧ mj.can_id ≤ 0x399) :
    ¬((mi.can_id % 256 == b) = true ∧ (mj.can_id % 256 == b) = true) := by
  rintro ⟨hi, hj⟩
  rw [beq_iff_eq] at hi hj
  have hpi : i % l.length < l.length := Nat.mod_lt _ (by omega)
  have hpj : j % l.length < l.length := Nat.mod_lt _ (by omega)
  have heqpos : i % l.length = j % l.length := by
    apply getD_bucket_inj l hnd _ _ hpi hpj
    · rw [← hidi]; exact hbi
    · rw [← hidj]; exact hbj
    · rw [← hidi, ← hidj, hi, hj]
  have hne := mod_close_ne l.length i (j - i) hk (by omega) (by omega)
  rw [Nat.add_sub_cancel' (Nat.le_of_lt hlt)] at hne
  exact hne heqpos.symm

/-- At most one of three pairwise-exclusive conditions contributes to a
count of indicators. -/
theorem if_triple_bound (c0 c1 c2 : Prop) [Decidable c0] [Decidable c1] [Decidable c2]
    (h01 : ¬(c0 ∧ c1)) (h02 : ¬(c0 ∧ c2)) (h12 : ¬(c1 ∧ c2)) :
    (if c0 then 1 else 0) + (if c1 then 1 else 0) + (if c2 then 1 else 0) ≤ 1 := by
  by_cases h0 : c0 <;> by_cases h1 : c1 <;> by_cases h2 : c2 <;> simp_all

/-- Running ten admissible frames from the initial window raises exactly
the verdict of the final histogram scan: no alert before the ring is
full, then `DosDetected` iff some bucket exceeds the threshold. -/
theorem dispatch_run_ten (ranges : List IdRange) (bs : List BaselinePattern)
    (m0 m1 m2 m3 m4 m5 m6 m7 m8 m9 : CANMessage)
    (hadm : ∀ m ∈ [m0, m1, m2, m3, m4, m5, m6, m7, m8, m9],
      detect_anomaly ranges bs m = false) :
    (dispatch_run ranges ⟨bs, initWindow⟩ [m0, m1, m2, m3, m4, m5, m6, m7, m8, m9]).2 =
      (if dos_detected [m0, m1, m2, m3, m4, m5, m6, m7, m8, m9] then [Alert.DosDetected]
       else []) := by
  have h9 : detect_anomaly ranges bs m9 = false := hadm m9 (by simp)
  have hsplit : ([m0, m1, m2, m3, m4, m5, m6, m7, m8, m9] : List CANMessage)
      = [m0, m1, m2, m3, m4, m5, m6, m7, m8] ++ [m9] := rfl
  have hfill := dispatch_run_fill ranges bs [m0, m1, m2, m3, m4, m5, m6, m7, m8] initWindow
    (fun m hm => hadm m (by simp at hm ⊢; tauto))
    (by simp [initWindow, WINDOW_SIZE])
  have hW9 : fillWindow initWindow [m0, m1, m2, m3, m4, m5, m6, m7, m8] =
      ⟨[m0, m1, m2, m3, m4, m5, m6, m7, m8, zeroMessage], 9, 9⟩ := rfl
  have hstep := CAN_MessageReceived_admit_full ranges
    ⟨bs, ⟨[m0, m1, m2, m3, m4, m5, m6, m7, m8, zeroMessage], 9, 9⟩⟩ m9 h9
    (by simp [WINDOW_SIZE])
  have hset : ([m0, m1, m2, m3, m4, m5, m6, m7, m8, zeroMessage] : List CANMessage).set 9 m9
      = [m0, m1, m2, m3, m4, m5, m6, m7, m8, m9] := rfl
  rw [hsplit, dispatch_run_append, hfill]
  dsimp only
  rw [hW9]
  simp only [dispatch_run, List.nil_append]
  rw [hstep]
  dsimp only
  rw [hset]
  by_cases hd : dos_detected [m0, m1, m2, m3, m4, m5, m6, m7, m8, m9] = true
  · simp [hd]
  · rw [Bool.not_eq_true] at hd
    simp [hd]

/-- C5: window flood law.  First part: feeding `WINDOW_SIZE` (= 10)
individually-admissible frames that all carry the same identifier to the
fresh dispatcher produces exactly one `DosDetected` alert by the time
the ring is full.  Second part (under the spec-modelled range table):
feeding a full ring round-robin over 3 or more distinct identifiers —
frame `i` carrying identifier `l[i mod l.length]` — never raises any
alert, whichever admissible distinct identifiers are chosen. -/
theorem window_flood_law :
    (∀ (ranges : List IdRange) (bs : List BaselinePattern) (c : Nat)
        (m0 m1 m2 m3 m4 m5 m6 m7 m8 m9 : CANMessage),
      (∀ m ∈ [m0, m1, m2, m3, m4, m5, m6, m7, m8, m9],
        detect_anomaly ranges bs m = false) →
      (∀ m ∈ [m0, m1, m2, m3, m4, m5, m6, m7, m8, m9], m.can_id = c) →
      (dispatch_run ranges ⟨bs, initWindow⟩
        [m0, m1, m2, m3, m4, m5, m6, m7, m8, m9]).2 = [Alert.DosDetected]) ∧
    (∀ (bs : List BaselinePattern) (l : List Nat)
        (m0 m1 m2 m3 m4 m5 m6 m7 m8 m9 : CANMessage),
      3 ≤ l.length → l.Nodup →
      m0.can_id = l.getD (0 % l.length) 0 →
      m1.can_id = l.getD (1 % l.length) 0 →
      m2.can_id = l.getD (2 % l.length) 0 →
      m3.can_id = l.getD (3 % l.length) 0 →
      m4.can_id = l.getD (4 % l.length) 0 →
      m5.can_id = l.getD (5 % l.length) 0 →
      m6.can_id = l.getD (6 % l.length) 0 →
      m7.can_id = l.getD (7 % l.length) 0 →
      m8.can_id = l.getD (8 % l.length) 0 →
      m9.can_id = l.getD (9 % l.length) 0 →
      (∀ m ∈ [m0, m1, m2, m3, m4, m5, m6, m7, m8, m9],
        detect_anomaly idRangesSpec bs m = false) →
      (dispatch_run idRangesSpec ⟨bs, initWindow⟩
        [m0, m1, m2, m3, m4, m5, m6, m7, m8, m9]).2 = []) := by
  constructor
  · intro ranges bs c m0 m1 m2 m3 m4 m5 m6 m7 m8 m9 hadm hid
    rw [dispatch_run_ten ranges bs m0 m1 m2 m3 m4 m5 m6 m7 m8 m9 hadm]
    have hdos : dos_detected [m0, m1, m2, m3, m4, m5, m6, m7, m8, m9] = true := by
      rw [dos_detected, List.any_eq_true]
      refine ⟨c % 256, List.mem_range.mpr (Nat.mod_lt _ (by norm_num)), ?_⟩
      rw [decide_eq_true_eq]
      have hbc : bucket_count [m0, m1, m2, m3, m4, m5, m6, m7, m8, m9] (c % 256) =
          ([m0, m1, m2, m3, m4, m5, m6, m7, m8, m9] : List CANMessage).length := by
        rw [bucket_count]
        refine List.countP_eq_length.mpr ?_
        intro a ha
        simp [hid a ha]
      rw [hbc]
      norm_num [floodLimit]
    rw [hdos]
    simp
  · intro bs l m0 m1 m2 m3 m4 m5 m6 m7 m8 m9 hk hnd h0 h1 h2 h3 h4 h5 h6 h7 h8 h9 hadm
    rw [dispatch_run_ten idRangesSpec bs m0 m1 m2 m3 m4 m5 m6 m7 m8 m9 hadm]
    have hb0 := admissible_bounds bs m0 (hadm m0 (by simp))
    have hb1 := admissible_bounds bs m1 (hadm m1 (by simp))
    have hb2 := admissible_bounds bs m2 (hadm m2 (by simp))
    have hb3 := admissible_bounds bs m3 (hadm m3 (by simp))
    have hb4 := admissible_bounds bs m4 (hadm m4 (by simp))
    have hb5 := admissible_bounds bs m5 (hadm m5 (by simp))
    have hb6 := admissible_bounds bs m6 (hadm m6 (by simp))
    have hb7 := admissible_bounds bs m7 (hadm m7 (by simp))
    have hb8 := admissible_bounds bs m8 (hadm m8 (by simp))
    have hdos : dos_detected [m0, m1, m2, m3, m4, m5, m6, m7, m8, m9] = false := by
      rw [dos_detected, List.any_eq_false]
      intro b hb
      simp only [decide_eq_true_eq, Nat.not_lt]
      have p01 := bucket_pair_exclusion l hk hnd b 0 1 (by norm_num) (by norm_num)
        m0 m1 h0 h1 hb0 hb1
      have p02 := bucket_pair_exclusion l hk hnd b 0 2 (by norm_num) (by norm_num)
        m0 m2 h0 h2 hb0 hb2
      have p12 := bucket_pair_exclusion l hk hnd b 1 2 (by norm_num) (by norm_num)
        m1 m2 h1 h2 hb1 hb2
      have p34 := bucket_pair_exclusion l hk hnd b 3 4 (by norm_num) (by norm_num)
        m3 m4 h3 h4 hb3 hb4
      have p35 := bucket_pair_exclusion l hk hnd b 3 5 (by norm_num) (by norm_num)
        m3 m5 h3 h5 hb3 hb5
      have p45 := bucket_pair_exclusion l hk hnd b 4 5 (by norm_num) (by norm_num)
        m4 m5 h4 h5 hb4 hb5
      have p67 := bucket_pair_exclusion l hk hnd b 6 7 (by norm_num) (by norm_num)
        m6 m7 h6 h7 hb6 hb7
      have p68 := bucket_pair_exclusion l hk hnd b 6 8 (by norm_num) (by norm_num)
        m6 m8 h6 h8 hb6 hb8
      have p78 := bucket_pair_exclusion l hk hnd b 7 8 (by norm_num) (by norm_num)
        m7 m8 h7 h8 hb7 hb8
      have g0 := if_triple_bound _ _ _ p01 p02 p12
      have g1 := if_triple_bound _ _ _ p34 p35 p45
      have g2 := if_triple_bound _ _ _ p67 p68 p78
      have g3 : (if (m9.can_id % 256 == b) = true then 1 else 0) ≤ 1 := by
        split <;> norm_num
      simp only [bucket_count, List.countP_cons, List.countP_nil, floodLimit]
      omega
    rw [hdos]
    simp

/-- C5 witness: ten admissible frames of identifier `0x321` raise
`DosDetected` when the ring fills, while a full-ring round-robin over the
three distinct admissible identifiers `0x300`, `0x301`, `0x302` raises
nothing. -/
theorem window_flood_law_witness :
    (dispatch_run idRangesSpec ⟨[], initWindow⟩
      [tempFrame 0x321, tempFrame 0x321, tempFrame 0x321, tempFrame 0x321, tempFrame 0x321,
       tempFrame 0x321, tempFrame 0x321, tempFrame 0x321, tempFrame 0x321,
       tempFrame 0x321]).2 = [Alert.DosDetected] ∧
    (dispatch_run idRangesSpec ⟨[], initWindow⟩
      [tempFrame 0x300, tempFrame 0x301, tempFrame 0x302, tempFrame 0x300, tempFrame 0x301,
       tempFrame 0x302, tempFrame 0x300, tempFrame 0x301, tempFrame 0x302,
       tempFrame 0x300]).2 = [] :=
  ⟨window_flood_law.1 idRangesSpec [] 0x321
      (tempFrame 0x321) (tempFrame 0x321) (tempFrame 0x321) (tempFrame 0x321)
      (tempFrame 0x321) (tempFrame 0x321) (tempFrame 0x321) (tempFrame 0x321)
      (tempFrame 0x321) (tempFrame 0x321) (by decide) (by decide),
   window_flood_law.2 [] [0x300, 0x301, 0x302]
      (tempFrame 0x300) (tempFrame 0x301) (tempFrame 0x302) (tempFrame 0x300)
      (tempFrame 0x301) (tempFrame 0x302) (tempFrame 0x300) (tempFrame 0x301)
      (tempFrame 0x302) (tempFrame 0x300) (by decide) (by decide)
      (by decide) (by decide) (by decide) (by decide) (by decide) (by decide)
      (by decide) (by decide) (by decide) (by decide) (by decide)⟩

end CanBus
